import Mathlib

/-!
Shallow embedding of `main.py` of the SUMO2GRAL repository: the pipeline
orchestrator that dispatches on the `process` argument, resolves the
bounding box through the coordinate transformer, slices weather records,
joins emissions to road geometry, and sequences the GRAL simulator input
file generation. Numeric scalars are embedded as rationals, collaborator
calls as explicit function parameters, and printed output as lists of
strings.
-/

namespace SUMO2GRAL

/-- Geographic or projected bounding box, mirroring the `location`
dictionary built in `main` (src/main.py lines 43-48 and 113-114, 129-130). -/
structure Location where
  north : ℚ
  south : ℚ
  east : ℚ
  west : ℚ
deriving DecidableEq, Repr

/-- Top-level branches of `main`'s dispatch on `args.process`
(src/main.py lines 59, 68, 87, 105, 120). -/
inductive Branch
  | buildings
  | weather
  | highway
  | map
  | gral
deriving DecidableEq, Repr

/-- Embedding of `main`'s dispatch structure: the sequence of `if
args.process in [...]` guards (src/main.py lines 59, 68, 87, 105, 120),
returning the branches whose bodies run, in program order. -/
def branchesRun (process : String) : List Branch :=
  (if process ∈ ["all", "buildings"] then [Branch.buildings] else []) ++
  (if process ∈ ["all", "weather"] then [Branch.weather] else []) ++
  (if process ∈ ["all", "highway"] then [Branch.highway] else []) ++
  (if process ∈ ["all", "map"] then [Branch.map] else []) ++
  (if process ∈ ["gral"] then [Branch.gral] else [])

/-- Corner-wise bounding-box resolution as performed in the map and gral
branches (src/main.py lines 107-114 and 123-130): the transformer is
applied to the (west, north) corner and to the (east, south) corner, and
the projected location dictionary is assembled from the two results.
Alongside the projected box we return the list of (x, y) argument pairs
passed to `convert_coordinates`, in call order. -/
def resolveBoundingBox (convert : ℚ → ℚ → ℚ × ℚ) (location : Location) :
    Location × List (ℚ × ℚ) :=
  let wn := convert location.west location.north
  let es := convert location.east location.south
  ({ north := wn.2, south := es.2, east := es.1, west := wn.1 },
   [(location.west, location.north), (location.east, location.south)])

/-- One call to a GRAL file generator, with the arguments `main` passes
(src/main.py lines 136-149). -/
inductive GralCall
  | createGrebFile (bbox : Location) (horizontalSlices : Nat)
  | createInDatFile (particlesPs : Nat) (dispertionTime : Nat)
      (latitude : ℚ) (horizontalSlices : List Nat)
  | createMeteogptFile
  | createOtherTxtRequieredFiles (pollutant : String) (nCores : Nat)
  | createBuildingsFile
  | createLineEmissionsFile (pollutant : String)
  | createOtherOptionalFiles
deriving DecidableEq, Repr

/-- The GRAL file-generation stage a call belongs to. -/
inductive GralStage
  | greb
  | inDat
  | meteogpt
  | otherRequired
  | buildings
  | lineEmissions
  | optionalFiles
deriving DecidableEq, Repr

/-- Maps each GRAL generator call to its stage. -/
def stageOf : GralCall → GralStage
  | .createGrebFile _ _ => .greb
  | .createInDatFile _ _ _ _ => .inDat
  | .createMeteogptFile => .meteogpt
  | .createOtherTxtRequieredFiles _ _ => .otherRequired
  | .createBuildingsFile => .buildings
  | .createLineEmissionsFile _ => .lineEmissions
  | .createOtherOptionalFiles => .optionalFiles

/-- Embedding of the gral branch of `main` (src/main.py lines 120-151):
resolve the bounding box corner-wise, fix the pollutant and the
horizontal layer list, compute the mean latitude from the geographic
location, and issue the GRAL file-generation calls in program order
(the `os.system` execution on line 151 is commented out in the source). -/
def gralBranch (convert : ℚ → ℚ → ℚ × ℚ) (location : Location) :
    List GralCall :=
  let locationEpsgNew := (resolveBoundingBox convert location).1
  let pollutant := "NOx"
  let horizontalLayers : List Nat := [3, 6, 9, 12, 15]
  let meanLatitude := (location.north + location.south) / 2
  [GralCall.createGrebFile locationEpsgNew horizontalLayers.length,
   GralCall.createInDatFile 500 3600 meanLatitude horizontalLayers,
   GralCall.createMeteogptFile,
   GralCall.createOtherTxtRequieredFiles pollutant 12,
   GralCall.createBuildingsFile,
   GralCall.createLineEmissionsFile pollutant,
   GralCall.createOtherOptionalFiles]

/-- The latitude argument of the first `create_in_dat_file` call in a
call list, if any. -/
def inDatLatitude : List GralCall → Option ℚ
  | [] => none
  | GralCall.createInDatFile _ _ lat _ :: _ => some lat
  | _ :: rest => inDatLatitude rest

/-- Arguments of `main` used by its body (src/main.py lines 40-153):
the bounding-box scalars, the process mode, the optional weather day
and hour, and the weather output file stem. -/
structure Args where
  north : ℚ
  south : ℚ
  east : ℚ
  west : ℚ
  process : String
  weatherDay : Option String
  weatherHour : Option Nat
  outputWeatherFile : String
deriving DecidableEq, Repr

/-- One fallible operation of the body of `main`, any process mode:
module construction (lines 51-56), the buildings, weather, highway and
map collaborator calls (lines 60, 69-85, 90-100, 115-119), the
coordinate transformer (lines 107-110 and 123-126), and the GRAL file
generators (lines 136-149). The shapefile writes of lines 61-66 and
102-103 are not here: `create_shapefile` catches its own failures
(lines 25-37), so they raise nothing into `main`'s body. -/
inductive Step
  | constructModules
  | processBuildings
  | processWeatherData
  | createMetFile
  | writeToFiles (filename : String)
  | readNet
  | processHighwayData
  | processSumoEmissions
  | combineEmissions
  | convertCoordinates (x y : ℚ)
  | createGeoreferencedMap
  | gralGenerator (c : GralCall)
deriving DecidableEq, Repr

/-- The fallible operations of `main`'s body in program order, as
dispatched on the process argument (src/main.py lines 51-151): module
construction first, then each guarded branch's collaborator calls. The
value returned by the coordinate transformer on success is given by
`convertVal`; whether any one operation raises is left to the behaviour
the run is executed against. -/
def mainSteps (args : Args) (convertVal : ℚ → ℚ → ℚ × ℚ) : List Step :=
  Step.constructModules ::
  ((if args.process ∈ ["all", "buildings"] then
      [Step.processBuildings]
    else []) ++
   (if args.process ∈ ["all", "weather"] then
      [Step.processWeatherData, Step.createMetFile,
       Step.writeToFiles (args.outputWeatherFile ++ ".csv"),
       Step.writeToFiles (args.outputWeatherFile ++ ".met")] ++
      (match args.weatherDay with
       | none => []
       | some day =>
         Step.writeToFiles (args.outputWeatherFile ++ "_" ++ day ++ ".met") ::
         (match args.weatherHour with
          | none => []
          | some hour =>
            [Step.writeToFiles (args.outputWeatherFile ++ "_" ++ day ++
              "_" ++ toString hour ++ ".met")]))
    else []) ++
   (if args.process ∈ ["all", "highway"] then
      [Step.readNet, Step.processHighwayData, Step.processSumoEmissions,
       Step.combineEmissions]
    else []) ++
   (if args.process ∈ ["all", "map"] then
      [Step.convertCoordinates args.west args.north,
       Step.convertCoordinates args.east args.south,
       Step.createGeoreferencedMap]
    else []) ++
   (if args.process ∈ ["gral"] then
      [Step.convertCoordinates args.west args.north,
       Step.convertCoordinates args.east args.south] ++
      (gralBranch convertVal
        { north := args.north, south := args.south,
          east := args.east, west := args.west }).map Step.gralGenerator
    else []))

/-- Fail-fast run of a sequence of fallible operations: returns the
operations that completed, in order, and the first raised exception
message, if any. -/
def runSeq (behavior : Step → Except String Unit) :
    List Step → List Step × Option String
  | [] => ([], none)
  | s :: rest =>
    match behavior s with
    | .ok _ =>
      let r := runSeq behavior rest
      (s :: r.1, r.2)
    | .error e => ([], some e)

/-- Result of a run of `main`: the body operations that completed (the
files written among them) and the lines printed to standard output.
`main` always produces such a result — the `try`/`except` at src/main.py
lines 41 and 152-153 turns every exception into a printed diagnostic. -/
structure MainResult where
  completedSteps : List Step
  printed : List String
deriving DecidableEq, Repr

/-- Embedding of `main` (src/main.py lines 40-153), any process mode:
the try block of line 41 runs the body's fallible operations in program
order and fail-fast; the except of lines 152-153 turns any raised
exception into the printed diagnostic of line 153, and `main` returns
normally. -/
def mainRun (behavior : Step → Except String Unit)
    (convertVal : ℚ → ℚ → ℚ × ℚ) (args : Args) : MainResult :=
  let r := runSeq behavior (mainSteps args convertVal)
  match r.2 with
  | none => { completedSteps := r.1, printed := [] }
  | some e => { completedSteps := r.1, printed := ["An error occurred: " ++ e] }

/-- One row of the processed meteorological series (`met_file_df`): the
date (`fecha`) and hour (`hora`) columns used by the slicing code
(src/main.py lines 76-85), plus the remaining columns. -/
structure WeatherRecord where
  fecha : String
  hora : Nat
  otherColumns : List String
deriving DecidableEq, Repr

/-- Embedding of the day slice `met_file_df[met_file_df['fecha'] ==
args.weather_day]` (src/main.py lines 77-78): pandas boolean-mask row
selection, modelled as a list filter. -/
def sliceByDay (series : List WeatherRecord) (day : String) :
    List WeatherRecord :=
  series.filter (fun r => r.fecha == day)

/-- Embedding of the hour slice `day_met_file_df[day_met_file_df['hora']
== args.weather_hour]` (src/main.py lines 82-83). -/
def sliceByHour (series : List WeatherRecord) (hour : Nat) :
    List WeatherRecord :=
  series.filter (fun r => r.hora == hour)

/-- One emission record: segment identifier, pollutant, timestep, value. -/
structure EmissionRecord where
  osmid : Nat
  pollutant : String
  timestamp : Nat
  value : ℚ
deriving DecidableEq, Repr

/-- One road segment: stable identifier and polyline geometry. -/
structure RoadSegment where
  osmid : Nat
  geometry : List (ℚ × ℚ)
deriving DecidableEq, Repr

/-- Modelled from the spec: the Emissions Join Engine — the
`combine_sumo_emissions_and_highway_data` method called at src/main.py
lines 99-100 lives in `line_emission_sources/highway_data_processor.py`,
which is not included under src/. Per spec §4.3 it is an equi-join of
emission records and road segments on the shared `osmid` identifier:
only identifiers present in both inputs survive, one output row per
matching (record, segment) pair, neither input mutated. -/
def joinEmissions (emissions : List EmissionRecord)
    (segments : List RoadSegment) : List (EmissionRecord × RoadSegment) :=
  emissions.flatMap
    (fun e => (segments.filter (fun s => s.osmid == e.osmid)).map
      (fun s => (e, s)))

/-- Example emissions input with identifiers 1, 2, 3 (spec §8 scenario). -/
def exampleEmissions : List EmissionRecord :=
  [⟨1, "NOx", 0, 1⟩, ⟨2, "NOx", 0, 2⟩, ⟨3, "NOx", 0, 3⟩]

/-- Example road-segment input with identifiers 2, 3, 4 (spec §8
scenario). -/
def exampleSegments : List RoadSegment :=
  [⟨2, []⟩, ⟨3, []⟩, ⟨4, []⟩]

/-- Geometry table handed to the shapefile writer. -/
structure GeoDF where
  features : List (Nat × List (ℚ × ℚ))
deriving DecidableEq, Repr

/-- Embedding of `create_shapefile` (src/main.py lines 11-37): print a
progress line, then reproject and serialize inside a `try`; any
exception from either collaborator is caught and a diagnostic printed.
The result is the printed log; an uncaught exception would surface as
`Except.error`, and the catch of lines 36-37 makes that impossible. -/
def create_shapefile (project : GeoDF → Except String GeoDF)
    (toFile : GeoDF → Except String Unit) (geo_df : GeoDF) :
    Except String (List String) :=
  match project geo_df with
  | .error e =>
    .ok ["Creating shapefile...", "Failed to create shapefile: " ++ e]
  | .ok reprojected =>
    match toFile reprojected with
    | .error e =>
      .ok ["Creating shapefile...", "Failed to create shapefile: " ++ e]
    | .ok _ => .ok ["Creating shapefile..."]

/-- Behaviour of the collaborators in which the emissions join raises
and every other operation succeeds. -/
def failAtCombineEmissions : Step → Except String Unit
  | .combineEmissions => .error "join failed"
  | _ => .ok ()

/-- Reprojection collaborator that always raises. -/
def projectAlwaysFails : GeoDF → Except String GeoDF :=
  fun _ => .error "disk full"

/-- Serialization collaborator that always succeeds. -/
def toFileAlwaysOk : GeoDF → Except String Unit :=
  fun _ => .ok ()

/-! Helper lemmas shared by the claim theorems. -/

/-- The stage trace of the gral branch is the same for every coordinate
transformer and every location: GREB, InDat, Meteogpt, OtherRequired,
Buildings, LineEmissions, OptionalFiles. -/
lemma gralBranch_stage_trace (convert : ℚ → ℚ → ℚ × ℚ)
    (location : Location) :
    (gralBranch convert location).map stageOf =
      [GralStage.greb, GralStage.inDat, GralStage.meteogpt,
       GralStage.otherRequired, GralStage.buildings,
       GralStage.lineEmissions, GralStage.optionalFiles] := rfl

/-- Running operations fail-fast past a block of succeeding operations
completes that block and continues with the rest. -/
lemma runSeq_ok_front (behavior : Step → Except String Unit) :
    ∀ (pre rest : List Step),
      (∀ s ∈ pre, behavior s = Except.ok ()) →
      runSeq behavior (pre ++ rest) =
        (pre ++ (runSeq behavior rest).1, (runSeq behavior rest).2)
  | [], rest, _ => by simp [runSeq]
  | s :: pre, rest, h => by
    have hs : behavior s = Except.ok () := h s (List.mem_cons_self s pre)
    simp only [List.cons_append, runSeq, hs, List.append_eq]
    rw [runSeq_ok_front behavior pre rest
      (fun s' hs' => h s' (List.mem_cons_of_mem s hs'))]

/-! Claim theorems. -/

/-- C1, counterexample: in the run of the gral sequencer with the
identity transformer on a concrete bounding box, the stage trace is not
the claimed order with Meteogpt first — the code calls the GREB and
InDat generators before the meteogpt one. -/
theorem c1_meteogpt_not_first :
    (gralBranch (fun x y => (x, y)) ⟨1, 0, 3, 2⟩).map stageOf ≠
      [GralStage.meteogpt, GralStage.greb, GralStage.inDat,
       GralStage.otherRequired, GralStage.buildings,
       GralStage.lineEmissions, GralStage.optionalFiles] := by
  rw [gralBranch_stage_trace]
  decide

/-- C1, amended: when the sequencer runs (process mode gral), the
simulator input files are generated in exactly the order GREB, then
InDat, then Meteogpt, then OtherRequiredFiles, then Buildings, then
LineEmissions, then OptionalFiles, each stage exactly once, with
one-directional transitions and no backtracking. -/
theorem c1_stage_order (convert : ℚ → ℚ → ℚ × ℚ) (location : Location) :
    (gralBranch convert location).map stageOf =
      [GralStage.greb, GralStage.inDat, GralStage.meteogpt,
       GralStage.otherRequired, GralStage.buildings,
       GralStage.lineEmissions, GralStage.optionalFiles] ∧
    ((gralBranch convert location).map stageOf).Nodup := by
  refine ⟨gralBranch_stage_trace convert location, ?_⟩
  rw [gralBranch_stage_trace]
  decide

/-- C2, counterexample: for a transformer that negates the y coordinate
— which inverts the north/south ordering of the geographic box with
north 10.1 and south 10 — the resolution step of the gral branch raises
nothing and returns the projected box exactly as composed from the two
corner transforms, with north smaller than south. -/
theorem c2_inverted_box_returned :
    (resolveBoundingBox (fun x y => (x, -y)) ⟨10.1, 10, 20.1, 20⟩).1 =
      { north := -10.1, south := -10, east := 20.1, west := 20 } ∧
    (resolveBoundingBox (fun x y => (x, -y)) ⟨10.1, 10, 20.1, 20⟩).1.north <
      (resolveBoundingBox (fun x y => (x, -y)) ⟨10.1, 10, 20.1, 20⟩).1.south := by
  constructor
  · rfl
  · show (-(10.1 : ℚ)) < -(10 : ℚ)
    norm_num

/-- C2, amended: the bounding-box resolution step performs no ordering
validation and cannot raise: whenever the corner-wise projection
inverts the north/south or the east/west ordering, the resolver
silently returns the inverted box, its four scalars taken unchanged
from the two corner transforms. -/
theorem c2_no_validation (convert : ℚ → ℚ → ℚ × ℚ) (location : Location)
    (h : (convert location.west location.north).2 <
        (convert location.east location.south).2 ∨
      (convert location.east location.south).1 <
        (convert location.west location.north).1) :
    ((resolveBoundingBox convert location).1.north <
        (resolveBoundingBox convert location).1.south ∨
      (resolveBoundingBox convert location).1.east <
        (resolveBoundingBox convert location).1.west) ∧
    (resolveBoundingBox convert location).1.north =
      (convert location.west location.north).2 ∧
    (resolveBoundingBox convert location).1.south =
      (convert location.east location.south).2 ∧
    (resolveBoundingBox convert location).1.east =
      (convert location.east location.south).1 ∧
    (resolveBoundingBox convert location).1.west =
      (convert location.west location.north).1 :=
  ⟨h, rfl, rfl, rfl, rfl⟩

/-- C2, witness: the amended theorem applied to the y-negating
transformer — which inverts the north/south ordering — on the box with
north 1, south 0, east 4, west 3. -/
theorem c2_no_validation_witness :
    ((resolveBoundingBox (fun x y => (x, -y)) ⟨1, 0, 4, 3⟩).1.north <
        (resolveBoundingBox (fun x y => (x, -y)) ⟨1, 0, 4, 3⟩).1.south ∨
      (resolveBoundingBox (fun x y => (x, -y)) ⟨1, 0, 4, 3⟩).1.east <
        (resolveBoundingBox (fun x y => (x, -y)) ⟨1, 0, 4, 3⟩).1.west) ∧
    (resolveBoundingBox (fun x y => (x, -y)) ⟨1, 0, 4, 3⟩).1.north =
      ((fun x y => (x, -y)) (3 : ℚ) (1 : ℚ)).2 ∧
    (resolveBoundingBox (fun x y => (x, -y)) ⟨1, 0, 4, 3⟩).1.south =
      ((fun x y => (x, -y)) (4 : ℚ) (0 : ℚ)).2 ∧
    (resolveBoundingBox (fun x y => (x, -y)) ⟨1, 0, 4, 3⟩).1.east =
      ((fun x y => (x, -y)) (4 : ℚ) (0 : ℚ)).1 ∧
    (resolveBoundingBox (fun x y => (x, -y)) ⟨1, 0, 4, 3⟩).1.west =
      ((fun x y => (x, -y)) (3 : ℚ) (1 : ℚ)).1 :=
  c2_no_validation (fun x y => (x, -y)) ⟨1, 0, 4, 3⟩ (Or.inl (by norm_num))

/-- C3: the latitude handed to the InDat generator is the arithmetic
mean of the geographic north and south latitudes, for every coordinate
transformer (so never the projected values); in particular, for north
10.1 and south 10 it is 10.05. -/
theorem c3_mean_latitude_geographic :
    (∀ (convert : ℚ → ℚ → ℚ × ℚ) (location : Location),
      inDatLatitude (gralBranch convert location) =
        some ((location.north + location.south) / 2)) ∧
    (∀ convert : ℚ → ℚ → ℚ × ℚ,
      inDatLatitude (gralBranch convert ⟨10.1, 10, 20.1, 20⟩) =
        some 10.05) := by
  constructor
  · intro convert location
    rfl
  · intro convert
    show some (((10.1 : ℚ) + 10) / 2) = some 10.05
    norm_num

/-- C4: slicing the weather series by day and then by hour is the
single conjunctive filter on (date, hour), and its result is a sublist
of the original series — no rows added, reordered, or altered. -/
theorem c4_slice_conjunction (series : List WeatherRecord) (day : String)
    (hour : Nat) :
    sliceByHour (sliceByDay series day) hour =
      series.filter (fun r => r.fecha == day && r.hora == hour) ∧
    (sliceByHour (sliceByDay series day) hour).Sublist series := by
  constructor
  · unfold sliceByDay sliceByHour
    rw [List.filter_filter]
    exact List.filter_congr (fun r _ => by rw [Bool.and_comm])
  · exact List.Sublist.trans (List.filter_sublist _) (List.filter_sublist _)

/-- C5: the emissions-to-geometry join is strictly inner on the segment
identifier — an identifier appears in the joined output exactly when it
appears in both inputs, every output row pairs an emission record and a
segment with the same identifier, and the {1,2,3} emissions joined with
{2,3,4} segments yield exactly the identifiers 2 and 3. -/
theorem c5_join_strictly_inner :
    (∀ (emissions : List EmissionRecord) (segments : List RoadSegment)
        (i : Nat),
      (∃ r ∈ joinEmissions emissions segments, r.1.osmid = i) ↔
        ((∃ e ∈ emissions, e.osmid = i) ∧ (∃ s ∈ segments, s.osmid = i))) ∧
    (∀ (emissions : List EmissionRecord) (segments : List RoadSegment),
      ∀ r ∈ joinEmissions emissions segments, r.1.osmid = r.2.osmid) ∧
    ((joinEmissions exampleEmissions exampleSegments).map
      (fun r => r.1.osmid) = [2, 3]) := by
  refine ⟨?_, ?_, by decide⟩
  · intro emissions segments i
    constructor
    · rintro ⟨r, hr, hid⟩
      simp only [joinEmissions, List.mem_flatMap, List.mem_map,
        List.mem_filter, beq_iff_eq] at hr
      obtain ⟨e, he, s, ⟨hs, heq⟩, hrs⟩ := hr
      subst hrs
      exact ⟨⟨e, he, hid⟩, ⟨s, hs, heq.trans hid⟩⟩
    · rintro ⟨⟨e, he, hei⟩, ⟨s, hs, hsi⟩⟩
      refine ⟨(e, s), ?_, hei⟩
      simp only [joinEmissions, List.mem_flatMap, List.mem_map,
        List.mem_filter, beq_iff_eq]
      exact ⟨e, he, s, ⟨hs, hsi.trans hei.symm⟩, rfl⟩
  · intro emissions segments r hr
    simp only [joinEmissions, List.mem_flatMap, List.mem_map,
      List.mem_filter, beq_iff_eq] at hr
    obtain ⟨e, _, s, ⟨_, heq⟩, hrs⟩ := hr
    subst hrs
    exact heq.symm

/-- C6: in every run of the gral sequencer, the GREB generation call
occupies an earlier position of the sequential call list than the InDat
generation call, so GREB generation completes before InDat generation
begins. -/
theorem c6_greb_before_indat (convert : ℚ → ℚ → ℚ × ℚ)
    (location : Location) :
    ∃ i j : Nat, i < j ∧
      ((gralBranch convert location).map stageOf)[i]? =
        some GralStage.greb ∧
      ((gralBranch convert location).map stageOf)[j]? =
        some GralStage.inDat := by
  refine ⟨0, 1, by norm_num, ?_, ?_⟩ <;> rw [gralBranch_stage_trace] <;> rfl

/-- C7: bounding-box resolution invokes the coordinate transformer on
exactly two argument pairs — (west, north) then (east, south) — and the
four scalars of the projected box are exactly the four coordinates those
two corner transforms return. -/
theorem c7_cornerwise_resolution (convert : ℚ → ℚ → ℚ × ℚ)
    (location : Location) :
    (resolveBoundingBox convert location).2 =
      [(location.west, location.north), (location.east, location.south)] ∧
    (resolveBoundingBox convert location).1 =
      { north := (convert location.west location.north).2,
        south := (convert location.east location.south).2,
        east := (convert location.east location.south).1,
        west := (convert location.west location.north).1 } :=
  ⟨rfl, rfl⟩

/-- C8: whenever any fallible operation of main's body raises — module
construction, projection, the join, a file write, a GRAL generator, in
any process mode — the top-level handler catches it, prints the
diagnostic naming the failure, and main returns normally; the
operations before the failing one are the only ones completed, so the
failure aborts all remaining stages and the files already written stay
as they are. -/
theorem c8_toplevel_catch (behavior : Step → Except String Unit)
    (convertVal : ℚ → ℚ → ℚ × ℚ) (args : Args) (e : String)
    (pre post : List Step) (s : Step)
    (hsplit : mainSteps args convertVal = pre ++ s :: post)
    (hpre : ∀ s' ∈ pre, behavior s' = Except.ok ())
    (hs : behavior s = Except.error e) :
    mainRun behavior convertVal args =
      { completedSteps := pre,
        printed := ["An error occurred: " ++ e] } := by
  unfold mainRun
  rw [hsplit, runSeq_ok_front behavior pre (s :: post) hpre]
  simp [runSeq, hs]

/-- C8, witness: with the behaviour in which the emissions join raises,
main in process mode highway completes exactly the module construction,
network read, highway processing and emissions-file processing, and
prints the diagnostic. -/
theorem c8_toplevel_catch_witness :
    mainRun failAtCombineEmissions (fun x y => (x, y))
      { north := 1, south := 0, east := 3, west := 2,
        process := "highway", weatherDay := none, weatherHour := none,
        outputWeatherFile := "weather" } =
      { completedSteps :=
          [Step.constructModules, Step.readNet, Step.processHighwayData,
           Step.processSumoEmissions],
        printed := ["An error occurred: " ++ "join failed"] } :=
  c8_toplevel_catch failAtCombineEmissions (fun x y => (x, y))
    { north := 1, south := 0, east := 3, west := 2,
      process := "highway", weatherDay := none, weatherHour := none,
      outputWeatherFile := "weather" }
    "join failed"
    [Step.constructModules, Step.readNet, Step.processHighwayData,
     Step.processSumoEmissions]
    []
    Step.combineEmissions
    (by decide)
    (by
      intro s' hs'
      simp only [List.mem_cons, List.not_mem_nil, or_false] at hs'
      rcases hs' with rfl | rfl | rfl | rfl <;> rfl)
    rfl

/-- C9: create_shapefile never propagates: for every pair of
collaborator behaviours and every input the result is a normal return,
and when reprojection or serialization raises, the log printed to
standard output ends with the diagnostic naming the failure. -/
theorem c9_shapefile_never_raises (project : GeoDF → Except String GeoDF)
    (toFile : GeoDF → Except String Unit) (geo_df : GeoDF) (e : String)
    (hfail : project geo_df = Except.error e ∨
      ∃ g, project geo_df = Except.ok g ∧ toFile g = Except.error e) :
    (∀ (p : GeoDF → Except String GeoDF) (t : GeoDF → Except String Unit)
        (g : GeoDF), ∃ log, create_shapefile p t g = Except.ok log) ∧
    create_shapefile project toFile geo_df =
      Except.ok ["Creating shapefile...",
                 "Failed to create shapefile: " ++ e] := by
  constructor
  · intro p t g
    rcases hp : p g with e' | g2
    · exact ⟨["Creating shapefile...", "Failed to create shapefile: " ++ e'],
        by simp [create_shapefile, hp]⟩
    · rcases ht : t g2 with e' | u
      · exact ⟨["Creating shapefile...",
          "Failed to create shapefile: " ++ e'],
          by simp [create_shapefile, hp, ht]⟩
      · exact ⟨["Creating shapefile..."], by simp [create_shapefile, hp, ht]⟩
  · rcases hfail with hp | ⟨g2, hp, ht⟩
    · simp [create_shapefile, hp]
    · simp [create_shapefile, hp, ht]

/-- C9, witness: the theorem applied to a reprojection collaborator
that always raises. -/
theorem c9_shapefile_never_raises_witness :
    (∀ (p : GeoDF → Except String GeoDF) (t : GeoDF → Except String Unit)
        (g : GeoDF), ∃ log, create_shapefile p t g = Except.ok log) ∧
    create_shapefile projectAlwaysFails toFileAlwaysOk ⟨[]⟩ =
      Except.ok ["Creating shapefile...",
                 "Failed to create shapefile: " ++ "disk full"] :=
  c9_shapefile_never_raises projectAlwaysFails toFileAlwaysOk ⟨[]⟩
    "disk full" (Or.inl rfl)

/-- C10: process mode all runs exactly the buildings, weather, highway
and map branches, process mode gral runs exactly the gral
file-generation branch, and the gral branch runs for no other value of
the process argument. -/
theorem c10_dispatch_exclusive :
    branchesRun "all" =
      [Branch.buildings, Branch.weather, Branch.highway, Branch.map] ∧
    branchesRun "gral" = [Branch.gral] ∧
    (∀ p : String, Branch.gral ∈ branchesRun p ↔ p = "gral") := by
  refine ⟨by decide, by decide, ?_⟩
  intro p
  constructor
  · intro hmem
    unfold branchesRun at hmem
    simp only [List.mem_append] at hmem
    rcases hmem with ((((h | h) | h) | h) | h) <;>
      [skip; skip; skip; skip;
       · split at h
         · next hp => simpa using hp
         · exact absurd h (List.not_mem_nil _)] <;>
      · split at h <;> simp_all
  · intro hp
    subst hp
    decide

end SUMO2GRAL
